import Mathlib

/-!
Explain plan of the sharding proxy (`proxy/plan/plan_explain.go`).

A shallow embedding of `buildExplainPlan`, `ExplainPlan.ExecuteIn`, `ExplainPlan.Size` and
`createExplainResult`, followed by the properties of the explain path.

Conventions of the embedding:

* a Go `map[string]V` is a `GoMap V`: `none` is the nil map, `some kvs` an allocated map whose
  entries `kvs` are listed in the order in which a `range` loop visits them;
* a Go `[]string` is a `List String` (a nil slice and an empty slice both range over nothing);
* a Go `error` is an `Option GoError`, `none` being the nil error; a Go pointer result is an
  `Option`, `none` being nil;
* functions, constants and types of packages that `plan_explain.go` imports but that are not part
  of this file (`BuildPlan`, `Restore`, `backend.DefaultSlice`, `format.DefaultRestoreFlags`,
  `mysql.BuildResultset`) are parameters of the definitions that use them.
-/

namespace plan

/-! ## Data model -/

/-- Go `error` value: only its message (`Error()`) is observed by this file. -/
structure GoError where
  msg : String
  deriving DecidableEq, Repr

/-- Go `map[string]V`: `none` is the nil map, `some kvs` lists the entries in iteration order. -/
abbrev GoMap (V : Type) := Option (List (String × V))

/-- Entries visited by `for k, v := range m`; ranging over a nil map visits nothing. -/
def GoMap.range {V : Type} (m : GoMap V) : List (String × V) :=
  m.getD []

/-- Allocation `make(map[string]V)`: an allocated map without entries. -/
def GoMap.make {V : Type} : GoMap V :=
  some []

/-- Assignment of one key in an entry list: the value of an existing key is replaced,
a new key gets a new entry. -/
def GoMap.setEntries {V : Type} (k : String) (v : V) : List (String × V) → List (String × V)
  | [] => [(k, v)]
  | (k', v') :: rest => if k' = k then (k, v) :: rest else (k', v') :: GoMap.setEntries k v rest

/-- Assignment `m[k] = v` on an allocated map (assignment to a nil map does not occur in
this file). -/
def GoMap.set {V : Type} (m : GoMap V) (k : String) (v : V) : GoMap V :=
  m.map (GoMap.setEntries k v)

/-- Type of the field `sqls`, `map[string]map[string][]string`: slice -> db -> SQL texts. -/
abbrev RoutingMap := GoMap (GoMap (List String))

/-- Constant `ShardTypeUnshard`. -/
def ShardTypeUnshard : String := "unshard"

/-- Constant `ShardTypeShard`. -/
def ShardTypeShard : String := "shard"

/-- ExplainPlan is the plan for explain statement. -/
structure ExplainPlan where
  shardType : String
  sqls : RoutingMap
  deriving DecidableEq, Repr

/-- Interface `ast.StmtNode` as seen by this file: a statement is either an `*ast.ExplainStmt`
(with its field `Stmt`) or a node of any other concrete type, carried as a value of `N`. -/
inductive StmtNode (N : Type) where
  | ExplainStmt (Stmt : StmtNode N) : StmtNode N
  | Other (node : N) : StmtNode N
  deriving DecidableEq, Repr

/-- Struct `ast.ExplainStmt`; only the field `Stmt` is read. -/
structure ExplainStmt (N : Type) where
  Stmt : StmtNode N
  deriving DecidableEq, Repr

/-- Type assertion `_, ok := s.(*ast.ExplainStmt)`: the value of `ok`. -/
def StmtNode.isExplainStmt {N : Type} : StmtNode N → Bool
  | .ExplainStmt _ => true
  | .Other _ => false

/-- Struct `format.RestoreCtx` built by `format.NewRestoreCtx(flags, in)`: the flags and the
writer, the writer being the `strings.Builder` given by its current contents. -/
structure RestoreCtx where
  Flags : Nat
  In : String
  deriving DecidableEq, Repr

/-- Constructor `format.NewRestoreCtx`. -/
def NewRestoreCtx (flags : Nat) (w : String) : RestoreCtx :=
  { Flags := flags, In := w }

/-- Interface `Plan` as seen by the type switch of `buildExplainPlan`: the dynamic type
of the plan and the fields that are read. `Other` is any further implementation, given by the
name that `%T` prints for it. -/
inductive Plan (N : Type) where
  | SelectPlan (sqls : RoutingMap) : Plan N
  | DeletePlan (sqls : RoutingMap) : Plan N
  | UpdatePlan (sqls : RoutingMap) : Plan N
  | InsertPlan (sqls : RoutingMap) : Plan N
  | UnshardPlan (db : String) (stmt : StmtNode N) : Plan N
  | ExplainPlan (ep : ExplainPlan) : Plan N
  | Other (typeName : String) : Plan N
  deriving DecidableEq, Repr

/-- Text of the verb `%T` for a value of interface type `Plan`; `none` is the nil interface. -/
def Plan.typeName {N : Type} : Option (Plan N) → String
  | none => "<nil>"
  | some (.SelectPlan _) => "*plan.SelectPlan"
  | some (.DeletePlan _) => "*plan.DeletePlan"
  | some (.UpdatePlan _) => "*plan.UpdatePlan"
  | some (.InsertPlan _) => "*plan.InsertPlan"
  | some (.UnshardPlan _ _) => "*plan.UnshardPlan"
  | some (.ExplainPlan _) => "*plan.ExplainPlan"
  | some (.Other n) => n

/-- One row `[]interface{}{shardType, slice, db, sql}`; every cell built here is a string. -/
abbrev Row := List String

/-- Struct `mysql.Result` as built here: only the field `Resultset` is set, a pointer to the
value of type `RS` that `mysql.BuildResultset` returned. -/
structure Result (RS : Type) where
  Resultset : Option RS
  deriving DecidableEq, Repr

/-! ## Operations -/

/-- Function `buildExplainPlan`. `BuildPlan`, `Restore`, `DefaultRestoreFlags` and
`DefaultSlice` stand for `plan.BuildPlan`, the method `Restore` of the statement,
`format.DefaultRestoreFlags` and `backend.DefaultSlice`. The result is the Go pair
`(*ExplainPlan, error)`. -/
def buildExplainPlan {N R S : Type}
    (BuildPlan : StmtNode N → String → String → R → S → Option (Plan N) × Option GoError)
    (Restore : StmtNode N → RestoreCtx → RestoreCtx × Option GoError)
    (DefaultRestoreFlags : Nat) (DefaultSlice : String)
    (stmt : ExplainStmt N) (db sql : String) (r : R) (seq : S) :
    Option ExplainPlan × Option GoError :=
  let stmtToExplain := stmt.Stmt
  if stmtToExplain.isExplainStmt then
    (none, some ⟨"nested explain"⟩)
  else
    match BuildPlan stmtToExplain db sql r seq with
    | (_, some err) => (none, some ⟨"build plan to explain error: " ++ err.msg⟩)
    | (p, none) =>
      match p with
      | some (.SelectPlan sqls) => (some { shardType := ShardTypeShard, sqls := sqls }, none)
      | some (.DeletePlan sqls) => (some { shardType := ShardTypeShard, sqls := sqls }, none)
      | some (.UpdatePlan sqls) => (some { shardType := ShardTypeShard, sqls := sqls }, none)
      | some (.InsertPlan sqls) => (some { shardType := ShardTypeShard, sqls := sqls }, none)
      | some (.UnshardPlan pdb pstmt) =>
        let epSqls : RoutingMap := GoMap.make
        let dbSQLs : GoMap (List String) := GoMap.make
        let s : String := ""
        let ctx := NewRestoreCtx DefaultRestoreFlags s
        let (ctx, _) := Restore pstmt ctx
        let dbSQLs := dbSQLs.set pdb [ctx.In]
        let epSqls := epSqls.set DefaultSlice dbSQLs
        (some { shardType := ShardTypeUnshard, sqls := epSqls }, none)
      | _ => (none, some ⟨"unsupport plan to explain, type: " ++ Plan.typeName p⟩)

/-- Column names `names` of `createExplainResult`. -/
def createExplainResult.names : List String :=
  ["type", "slice", "db", "sql"]

/-- Rows `rows` of `createExplainResult` after its three nested `range` loops: every loop
appends to the rows built so far. -/
def createExplainResult.rows (shardType : String) (sqls : RoutingMap) : List Row :=
  sqls.range.foldl (fun rows sd =>
    sd.2.range.foldl (fun rows dt =>
      dt.2.foldl (fun rows sql => rows ++ [[shardType, sd.1, dt.1, sql]]) rows) rows) []

/-- Function `createExplainResult`. `BuildResultset` stands for `mysql.BuildResultset`
(fields, names, values), whose error result is dropped. -/
def createExplainResult {F RS : Type}
    (BuildResultset : Option (List F) → List String → List Row → Option RS × Option GoError)
    (shardType : String) (sqls : RoutingMap) : Option (Result RS) :=
  let rows := createExplainResult.rows shardType sqls
  let names := createExplainResult.names
  let (r, _) := BuildResultset none names rows
  let ret : Result RS := { Resultset := r }
  some ret

/-- Method `ExplainPlan.ExecuteIn`; the request context and the executor are the two unnamed
parameters. -/
def ExplainPlan.ExecuteIn {F RS C E : Type}
    (BuildResultset : Option (List F) → List String → List Row → Option RS × Option GoError)
    (p : ExplainPlan) (_ctx : C) (_executor : E) : Option (Result RS) × Option GoError :=
  (createExplainResult BuildResultset p.shardType p.sqls, none)

/-- Method `ExplainPlan.Size`. -/
def ExplainPlan.Size (_p : ExplainPlan) : Nat :=
  1

/-! ## Reference definitions for the flattening of a routing map -/

/-- Total count of SQL entries of a routing map, summed across all (slice, db) pairs. -/
def entryCount (sqls : RoutingMap) : Nat :=
  (sqls.range.map fun sd => (sd.2.range.map fun dt => dt.2.length).sum).sum

/-- Multiset of the tuples (type, slice, db, sql) of a routing map: one tuple for every slice,
every db under that slice and every position of the SQL sequence of that (slice, db) pair. -/
def routingTuples (shardType : String) (sqls : RoutingMap) : Multiset Row :=
  (Multiset.ofList sqls.range).bind fun sd =>
    (Multiset.ofList sd.2.range).bind fun dt =>
      (Multiset.ofList dt.2).map fun sql => [shardType, sd.1, dt.1, sql]

/-- Text that `Restore` leaves in a fresh `strings.Builder` for a statement, whether or not it
returns an error: the value of `s.String()` in the Unshard case of `buildExplainPlan`. -/
def restoredText {N : Type} (Restore : StmtNode N → RestoreCtx → RestoreCtx × Option GoError)
    (DefaultRestoreFlags : Nat) (stmt : StmtNode N) : String :=
  (Restore stmt (NewRestoreCtx DefaultRestoreFlags "")).1.In

/-- The plan is one of the five variants Select, Delete, Update, Insert, Unshard that the type
switch of `buildExplainPlan` has a case for. -/
def Plan.explainable {N : Type} : Option (Plan N) → Bool
  | some (.SelectPlan _) => true
  | some (.DeletePlan _) => true
  | some (.UpdatePlan _) => true
  | some (.InsertPlan _) => true
  | some (.UnshardPlan _ _) => true
  | _ => false

/-- The plan is the Unshard variant. -/
def Plan.isUnshard {N : Type} : Option (Plan N) → Bool
  | some (.UnshardPlan _ _) => true
  | _ => false

/-- A Go map holds every key once: no key occurs in two of its entries. -/
def GoMap.uniqueKeys {V : Type} (m : GoMap V) : Prop :=
  (m.range.map Prod.fst).Nodup

/-- A routing map holds every slice once and, under every slice, every database once. -/
def routingKeysUnique (sqls : RoutingMap) : Prop :=
  sqls.uniqueKeys ∧ ∀ sd ∈ sqls.range, sd.2.uniqueKeys

/-- Two routing maps hold the same entries and differ at most in the order in which a `range`
loop visits the slices and, under each slice, the databases. -/
def sameRoutingMap (a b : RoutingMap) : Prop :=
  ∃ c : List (String × GoMap (List String)),
    List.Forall₂ (fun x y => x.1 = y.1 ∧ x.2.range.Perm y.2.range) a.range c ∧ c.Perm b.range

end plan

namespace mysql

/-- Modelled from the spec: the type `mysql.Field` of a column definition is not part of
`plan_explain.go`, which passes no field (`nil`) to `BuildResultset`; a field is a named
column. -/
structure Field where
  Name : String
  deriving DecidableEq, Repr

/-- Modelled from the spec: the type `mysql.Resultset` is not part of `plan_explain.go`; the
spec calls a result "a tabular value with named columns and rows of heterogeneous scalar
cells". -/
structure Resultset where
  names : List String
  rows : List plan.Row
  deriving DecidableEq, Repr

/-- Modelled from the spec: the function `mysql.BuildResultset` is not part of
`plan_explain.go`; on the explain path the result is produced "by direct construction from
the RoutingMap", a table with the column names and the rows it is given. -/
def BuildResultset (_fields : Option (List Field)) (names : List String)
    (rows : List plan.Row) : Option Resultset × Option plan.GoError :=
  (some { names := names, rows := rows }, none)

end mysql

namespace plan

/-! ## Concrete scenarios -/

/-- A `Restore` for statements given by their canonical text: the text is written to the
writer of the context; an EXPLAIN node writes its keyword and then the wrapped statement. -/
def scenarioRestore : StmtNode String → RestoreCtx → RestoreCtx × Option GoError
  | .Other text, ctx => ({ ctx with In := ctx.In ++ text }, none)
  | .ExplainStmt s, ctx => scenarioRestore s { ctx with In := ctx.In ++ "EXPLAIN " }

/-- Routing map of scenario A: `{slice0: {db1: ["SELECT * FROM orders_5 WHERE id = 5"]}}`. -/
def scenarioRouting : RoutingMap :=
  some [("slice0", some [("db1", ["SELECT * FROM orders_5 WHERE id = 5"])])]

/-- A plan builder for the scenarios: the select on the sharded table `orders` gets a Select
plan with the routing of scenario A, an EXPLAIN gets an Explain plan, the statement `BROKEN`
fails, the statement `SET x = 1` gets a plan of a type unknown to the explain plan, and any
other statement gets an Unshard plan on the default database. -/
def scenarioBuildPlan (stmt : StmtNode String) (db _sql : String) (_r _seq : Unit) :
    Option (Plan String) × Option GoError :=
  match stmt with
  | .ExplainStmt _ => (some (.ExplainPlan { shardType := ShardTypeShard, sqls := none }), none)
  | .Other text =>
    if text = "SELECT * FROM orders WHERE id = 5" then (some (.SelectPlan scenarioRouting), none)
    else if text = "BROKEN" then (none, some ⟨"no route"⟩)
    else if text = "SET x = 1" then (some (.Other "*plan.SetPlan"), none)
    else (some (.UnshardPlan db stmt), none)

/-- A `Restore` that fails: it writes the first four characters of the text of a statement
and then returns an error; for an EXPLAIN node it fails before writing. -/
def scenarioRestoreFailing : StmtNode String → RestoreCtx → RestoreCtx × Option GoError
  | .Other text, ctx =>
    ({ ctx with In := ctx.In ++ String.mk (text.toList.take 4) }, some ⟨"restore failed"⟩)
  | .ExplainStmt _, ctx => (ctx, some ⟨"restore failed"⟩)

/-! ## Flattening lemmas -/

theorem foldl_append_singleton_map {α β : Type} (f : α → β) (l : List α) (init : List β) :
    l.foldl (fun rows x => rows ++ [f x]) init = init ++ l.map f := by
  induction l generalizing init with
  | nil => simp
  | cons x xs ih => simp [ih]

theorem foldl_append_flatMap {α β : Type} (g : α → List β) (l : List α) (init : List β) :
    l.foldl (fun rows x => rows ++ g x) init = init ++ l.flatMap g := by
  induction l generalizing init with
  | nil => simp
  | cons x xs ih => simp [ih, List.append_assoc]

/-- The three nested loops of `createExplainResult` compute the flattening of the map in
iteration order. -/
theorem rows_eq_flatMap (shardType : String) (sqls : RoutingMap) :
    createExplainResult.rows shardType sqls =
      sqls.range.flatMap fun sd => sd.2.range.flatMap fun dt =>
        dt.2.map fun sql => [shardType, sd.1, dt.1, sql] := by
  unfold createExplainResult.rows
  simp only [foldl_append_singleton_map, foldl_append_flatMap, List.nil_append]

theorem rows_length (shardType : String) (sqls : RoutingMap) :
    (createExplainResult.rows shardType sqls).length = entryCount sqls := by
  rw [rows_eq_flatMap, entryCount]
  simp only [List.length_flatMap, List.length_map, Function.comp_def]

theorem rows_coe_eq_routingTuples (shardType : String) (sqls : RoutingMap) :
    (↑(createExplainResult.rows shardType sqls) : Multiset Row) = routingTuples shardType sqls := by
  rw [rows_eq_flatMap, routingTuples]
  simp only [← Multiset.coe_bind, ← Multiset.map_coe]

theorem flatMap_perm_of_forall₂ {α β : Type} (R : α → α → Prop) (f : α → List β)
    (hR : ∀ x y, R x y → (f x).Perm (f y)) :
    ∀ (a c : List α), List.Forall₂ R a c → (a.flatMap f).Perm (c.flatMap f) := by
  intro a c h
  induction h with
  | nil => simp
  | cons hxy _ ih =>
    simp only [List.flatMap_cons]
    exact (hR _ _ hxy).append ih

theorem rows_perm_of_sameRoutingMap (shardType : String) (a b : RoutingMap)
    (h : sameRoutingMap a b) :
    (createExplainResult.rows shardType a).Perm (createExplainResult.rows shardType b) := by
  obtain ⟨c, hac, hcb⟩ := h
  rw [rows_eq_flatMap, rows_eq_flatMap]
  refine List.Perm.trans ?_ (List.Perm.flatMap_right _ hcb)
  refine flatMap_perm_of_forall₂ _ _ ?_ _ _ hac
  rintro ⟨s, m⟩ ⟨s', m'⟩ ⟨hs, hm⟩
  simp only at hs hm
  subst hs
  exact List.Perm.flatMap_right _ hm

/-! ## Properties of the explain plan -/

/-- C1: for every EXPLAIN statement whose wrapped statement is itself an EXPLAIN statement, and
for every db, sql, router and sequence manager, `buildExplainPlan` returns no plan and the error
"nested explain"; the result is the same whatever `BuildPlan` (and `Restore`) would return,
so `BuildPlan` is not consulted. -/
theorem buildExplainPlan_nested_explain {N R S : Type}
    (BuildPlan : StmtNode N → String → String → R → S → Option (Plan N) × Option GoError)
    (Restore : StmtNode N → RestoreCtx → RestoreCtx × Option GoError)
    (DefaultRestoreFlags : Nat) (DefaultSlice : String)
    (inner : StmtNode N) (db sql : String) (r : R) (seq : S) :
    buildExplainPlan BuildPlan Restore DefaultRestoreFlags DefaultSlice
      { Stmt := .ExplainStmt inner } db sql r seq = (none, some ⟨"nested explain"⟩) := by
  simp [buildExplainPlan, StmtNode.isExplainStmt]

/-- C2: for every shard type and routing map, the rows that `createExplainResult` hands to
`BuildResultset` are `createExplainResult.rows`, and their number equals the sum, over all
(slice, db) pairs, of the length of the SQL sequence stored under the pair; a map none of whose
pairs holds an SQL entry yields no row. -/
theorem createExplainResult_row_count {F RS : Type}
    (BuildResultset : Option (List F) → List String → List Row → Option RS × Option GoError)
    (shardType : String) (sqls : RoutingMap) :
    createExplainResult BuildResultset shardType sqls =
        some ⟨(BuildResultset none createExplainResult.names
          (createExplainResult.rows shardType sqls)).1⟩ ∧
      (createExplainResult.rows shardType sqls).length = entryCount sqls ∧
      ((∀ sd ∈ sqls.range, ∀ dt ∈ sd.2.range, dt.2 = []) →
        createExplainResult.rows shardType sqls = []) := by
  refine ⟨rfl, rows_length shardType sqls, ?_⟩
  intro h
  rw [rows_eq_flatMap]
  simp only [List.flatMap_eq_nil_iff, List.map_eq_nil_iff]
  exact h

/-- Witness of C2 on a map whose two (slice, db) pairs hold no SQL entry and whose third slice
is a nil map. -/
theorem createExplainResult_row_count_witness :
    createExplainResult.rows "shard"
      (some [("s0", some [("d0", []), ("d1", [])]), ("s1", none)]) = [] :=
  (createExplainResult_row_count mysql.BuildResultset "shard"
    (some [("s0", some [("d0", []), ("d1", [])]), ("s1", none)])).2.2 (by decide)

/-- C3: for every shard type and routing map, the multiset of rows built by
`createExplainResult` equals the multiset of tuples (type, slice, db, sql) taken over every
slice, every db under the slice and every position of the SQL sequence of the pair; and two
routing maps that differ only in the order in which slices and databases are visited give the
same multiset of rows. -/
theorem createExplainResult_rows_multiset (shardType : String) (sqls : RoutingMap) :
    (↑(createExplainResult.rows shardType sqls) : Multiset Row) = routingTuples shardType sqls ∧
      ∀ sqls' : RoutingMap, sameRoutingMap sqls sqls' →
        (↑(createExplainResult.rows shardType sqls') : Multiset Row) =
          ↑(createExplainResult.rows shardType sqls) := by
  refine ⟨rows_coe_eq_routingTuples shardType sqls, ?_⟩
  intro sqls' h
  exact Multiset.coe_eq_coe.mpr (rows_perm_of_sameRoutingMap shardType sqls sqls' h).symm

/-- Witness of C3: a map of two slices, visited in two different orders at both levels. -/
theorem createExplainResult_rows_multiset_witness :
    (↑(createExplainResult.rows "shard"
        (some [("s1", some [("d2", ["q3"])]), ("s0", some [("d1", ["q2"]), ("d0", ["q0", "q1"])])]))
      : Multiset Row) =
      ↑(createExplainResult.rows "shard"
        (some [("s0", some [("d0", ["q0", "q1"]), ("d1", ["q2"])]), ("s1", some [("d2", ["q3"])])])) :=
  (createExplainResult_rows_multiset "shard"
    (some [("s0", some [("d0", ["q0", "q1"]), ("d1", ["q2"])]), ("s1", some [("d2", ["q3"])])])).2
    (some [("s1", some [("d2", ["q3"])]), ("s0", some [("d1", ["q2"]), ("d0", ["q0", "q1"])])])
    ⟨[("s0", some [("d1", ["q2"]), ("d0", ["q0", "q1"])]), ("s1", some [("d2", ["q3"])])],
      List.Forall₂.cons ⟨rfl, List.Perm.swap _ _ _⟩
        (List.Forall₂.cons ⟨rfl, List.Perm.refl _⟩ List.Forall₂.nil),
      List.Perm.swap _ _ _⟩

/-- C4: for every ExplainPlan, whatever its shard type and routing map (an empty or nil
routing map included), `ExecuteIn` builds its result set from exactly the four column names
type, slice, db, sql, in this order, so that the result has exactly these four columns. -/
theorem ExecuteIn_columns {C E : Type} (p : ExplainPlan) (ctx : C) (executor : E) :
    (∀ {F RS : Type}
        (B : Option (List F) → List String → List Row → Option RS × Option GoError),
        (p.ExecuteIn B ctx executor).1 =
          some ⟨(B none ["type", "slice", "db", "sql"]
            (createExplainResult.rows p.shardType p.sqls)).1⟩) ∧
      ∃ rs : mysql.Resultset,
        (p.ExecuteIn mysql.BuildResultset ctx executor).1 = some ⟨some rs⟩ ∧
          rs.names = ["type", "slice", "db", "sql"] ∧ rs.names.length = 4 := by
  refine ⟨fun _ => rfl, ⟨_, _⟩, rfl, rfl, rfl⟩

/-- The rows of a routing map with one slice, one database and one SQL entry. -/
theorem rows_single (shardType slice db sql : String) :
    createExplainResult.rows shardType (some [(slice, some [(db, [sql])])]) =
      [[shardType, slice, db, sql]] := rfl

/-- C5: when the wrapped statement is not an EXPLAIN and `BuildPlan` returns an Unshard plan
with statement `s` and database `d` for it, `buildExplainPlan` succeeds with shard type
"unshard" and a routing map with exactly one slice key (the default slice), one database key
`d` under it and one SQL entry, the text that `Restore` with the default flags writes for `s`;
the raw `sql` text does not occur in it; `ExecuteIn` hands exactly the one row
(unshard, default slice, d, restored text) to the result set. -/
theorem buildExplainPlan_unshard {N R S : Type}
    (BuildPlan : StmtNode N → String → String → R → S → Option (Plan N) × Option GoError)
    (Restore : StmtNode N → RestoreCtx → RestoreCtx × Option GoError)
    (DefaultRestoreFlags : Nat) (DefaultSlice : String)
    (stmt : ExplainStmt N) (db sql : String) (r : R) (seq : S) (d : String) (s : StmtNode N)
    (hne : stmt.Stmt.isExplainStmt = false)
    (hbp : BuildPlan stmt.Stmt db sql r seq = (some (.UnshardPlan d s), none)) :
    buildExplainPlan BuildPlan Restore DefaultRestoreFlags DefaultSlice stmt db sql r seq =
        (some ⟨"unshard",
          some [(DefaultSlice, some [(d, [restoredText Restore DefaultRestoreFlags s])])]⟩,
          none) ∧
      (∀ sql' : String, BuildPlan stmt.Stmt db sql' r seq = (some (.UnshardPlan d s), none) →
        buildExplainPlan BuildPlan Restore DefaultRestoreFlags DefaultSlice stmt db sql' r seq =
          buildExplainPlan BuildPlan Restore DefaultRestoreFlags DefaultSlice stmt db sql r seq) ∧
      ∀ {F RS C E : Type}
        (B : Option (List F) → List String → List Row → Option RS × Option GoError)
        (ctx : C) (executor : E),
        ExplainPlan.ExecuteIn B
            ⟨"unshard",
              some [(DefaultSlice, some [(d, [restoredText Restore DefaultRestoreFlags s])])]⟩
            ctx executor =
          (some ⟨(B none ["type", "slice", "db", "sql"]
            [["unshard", DefaultSlice, d, restoredText Restore DefaultRestoreFlags s]]).1⟩,
            none) := by
  have key : ∀ q : String, BuildPlan stmt.Stmt db q r seq = (some (.UnshardPlan d s), none) →
      buildExplainPlan BuildPlan Restore DefaultRestoreFlags DefaultSlice stmt db q r seq =
        (some ⟨"unshard",
          some [(DefaultSlice, some [(d, [restoredText Restore DefaultRestoreFlags s])])]⟩,
          none) := by
    intro q hq
    simp [buildExplainPlan, hne, hq, restoredText, GoMap.make, GoMap.set, GoMap.setEntries,
      ShardTypeUnshard]
  refine ⟨key sql hbp, fun sql' h' => (key sql' h').trans (key sql hbp).symm, ?_⟩
  intro F RS C E B ctx executor
  rfl

/-- Witness of C5, scenario C: `EXPLAIN SHOW TABLES` on default slice `default` and database
`app` gives the plan with the single entry `SHOW TABLES` and the single row
(unshard, default, app, SHOW TABLES). -/
theorem buildExplainPlan_unshard_witness :
    buildExplainPlan scenarioBuildPlan scenarioRestore 0 "default"
        { Stmt := .Other "SHOW TABLES" } "app" "EXPLAIN SHOW TABLES" () () =
        (some ⟨"unshard", some [("default", some [("app", ["SHOW TABLES"])])]⟩, none) ∧
      ExplainPlan.ExecuteIn mysql.BuildResultset
          ⟨"unshard", some [("default", some [("app", ["SHOW TABLES"])])]⟩ () () =
        (some ⟨some ⟨["type", "slice", "db", "sql"],
          [["unshard", "default", "app", "SHOW TABLES"]]⟩⟩, none) :=
  have h := buildExplainPlan_unshard scenarioBuildPlan scenarioRestore 0 "default"
    { Stmt := .Other "SHOW TABLES" } "app" "EXPLAIN SHOW TABLES" () () "app"
    (.Other "SHOW TABLES") rfl (by decide)
  ⟨h.1, h.2.2 mysql.BuildResultset () ()⟩

/-- C6: when the wrapped statement is not an EXPLAIN and `BuildPlan`, called with the wrapped
statement and the same db, sql, router and sequence manager, returns a Select, Delete, Update
or Insert plan with routing map `m`, `buildExplainPlan` succeeds with shard type "shard" and
the routing map `m` itself, and `ExecuteIn` hands the rows of `m` to the result set. -/
theorem buildExplainPlan_shard {N R S : Type}
    (BuildPlan : StmtNode N → String → String → R → S → Option (Plan N) × Option GoError)
    (Restore : StmtNode N → RestoreCtx → RestoreCtx × Option GoError)
    (DefaultRestoreFlags : Nat) (DefaultSlice : String)
    (stmt : ExplainStmt N) (db sql : String) (r : R) (seq : S) (pl : Plan N) (m : RoutingMap)
    (hne : stmt.Stmt.isExplainStmt = false)
    (hbp : BuildPlan stmt.Stmt db sql r seq = (some pl, none))
    (hpl : pl = .SelectPlan m ∨ pl = .DeletePlan m ∨ pl = .UpdatePlan m ∨ pl = .InsertPlan m) :
    buildExplainPlan BuildPlan Restore DefaultRestoreFlags DefaultSlice stmt db sql r seq =
        (some ⟨"shard", m⟩, none) ∧
      ∀ {F RS C E : Type}
        (B : Option (List F) → List String → List Row → Option RS × Option GoError)
        (ctx : C) (executor : E),
        ExplainPlan.ExecuteIn B ⟨"shard", m⟩ ctx executor =
          (some ⟨(B none ["type", "slice", "db", "sql"]
            (createExplainResult.rows "shard" m)).1⟩, none) := by
  refine ⟨?_, fun _ _ _ => rfl⟩
  rcases hpl with h | h | h | h <;> subst h <;>
    simp [buildExplainPlan, hne, hbp, ShardTypeShard]

/-- Witness of C6, scenario B: `EXPLAIN SELECT * FROM orders WHERE id = 5` over the routing
`{slice0: {db1: ["SELECT * FROM orders_5 WHERE id = 5"]}}` gives the rows
`[(shard, slice0, db1, SELECT * FROM orders_5 WHERE id = 5)]`. -/
theorem buildExplainPlan_shard_witness :
    buildExplainPlan scenarioBuildPlan scenarioRestore 0 "default"
        { Stmt := .Other "SELECT * FROM orders WHERE id = 5" } "app"
        "EXPLAIN SELECT * FROM orders WHERE id = 5" () () =
        (some ⟨"shard", scenarioRouting⟩, none) ∧
      ExplainPlan.ExecuteIn mysql.BuildResultset ⟨"shard", scenarioRouting⟩ () () =
        (some ⟨some ⟨["type", "slice", "db", "sql"],
          [["shard", "slice0", "db1", "SELECT * FROM orders_5 WHERE id = 5"]]⟩⟩, none) :=
  have h := buildExplainPlan_shard scenarioBuildPlan scenarioRestore 0 "default"
    { Stmt := .Other "SELECT * FROM orders WHERE id = 5" } "app"
    "EXPLAIN SELECT * FROM orders WHERE id = 5" () () (.SelectPlan scenarioRouting)
    scenarioRouting rfl (by decide) (Or.inl rfl)
  ⟨h.1, h.2 mysql.BuildResultset () ()⟩

/-- C7: for every ExplainPlan, every request context and every executor, `ExecuteIn` returns
a non-nil result with a nil error, the result being `createExplainResult` of the shard type
and routing map of the plan; two runs that differ in the context or in the executor (of
whatever types, functions included) return the same result, so the executor is not consulted. -/
theorem ExecuteIn_ignores_executor {F RS C C' E E' : Type}
    (B : Option (List F) → List String → List Row → Option RS × Option GoError)
    (p : ExplainPlan) (ctx : C) (executor : E) (ctx' : C') (executor' : E') :
    p.ExecuteIn B ctx executor =
        (some ⟨(B none ["type", "slice", "db", "sql"]
          (createExplainResult.rows p.shardType p.sqls)).1⟩, none) ∧
      (p.ExecuteIn B ctx executor).1 ≠ none ∧
      (p.ExecuteIn B ctx executor).2 = none ∧
      p.ExecuteIn B ctx executor = p.ExecuteIn B ctx' executor' := by
  refine ⟨rfl, ?_, rfl, rfl⟩
  simp [ExplainPlan.ExecuteIn, createExplainResult]

/-- C8: for every ExplainPlan, `Size` returns 1, whatever the shard type and however many SQL
entries the routing map holds. -/
theorem Size_eq_one (p : ExplainPlan) : p.Size = 1 := rfl

/-- C9: when the wrapped statement is not an EXPLAIN and `BuildPlan` on the wrapped statement
fails with cause `e`, `buildExplainPlan` returns no plan and an error whose message is exactly
"build plan to explain error: " followed by the message of `e`. -/
theorem buildExplainPlan_build_error {N R S : Type}
    (BuildPlan : StmtNode N → String → String → R → S → Option (Plan N) × Option GoError)
    (Restore : StmtNode N → RestoreCtx → RestoreCtx × Option GoError)
    (DefaultRestoreFlags : Nat) (DefaultSlice : String)
    (stmt : ExplainStmt N) (db sql : String) (r : R) (seq : S) (e : GoError)
    (hne : stmt.Stmt.isExplainStmt = false)
    (hbp : (BuildPlan stmt.Stmt db sql r seq).2 = some e) :
    buildExplainPlan BuildPlan Restore DefaultRestoreFlags DefaultSlice stmt db sql r seq =
      (none, some ⟨"build plan to explain error: " ++ e.msg⟩) := by
  rcases hres : BuildPlan stmt.Stmt db sql r seq with ⟨p, err⟩
  rw [hres] at hbp
  simp only at hbp
  subst hbp
  simp [buildExplainPlan, hne, hres]

/-- Witness of C9: the plan builder fails with "no route" for the statement `BROKEN`. -/
theorem buildExplainPlan_build_error_witness :
    buildExplainPlan scenarioBuildPlan scenarioRestore 0 "default"
        { Stmt := .Other "BROKEN" } "app" "EXPLAIN BROKEN" () () =
      (none, some ⟨"build plan to explain error: no route"⟩) :=
  buildExplainPlan_build_error scenarioBuildPlan scenarioRestore 0 "default"
    { Stmt := .Other "BROKEN" } "app" "EXPLAIN BROKEN" () () ⟨"no route"⟩ rfl (by decide)

/-- C10: when the wrapped statement is not an EXPLAIN and `BuildPlan` succeeds with a plan
that is none of Select, Delete, Update, Insert, Unshard (an Explain plan, a plan of another
type, or a nil plan), `buildExplainPlan` returns no plan and fails with the error of the
default case of its type switch, the unsupported-plan error, whose message is
"unsupport plan to explain, type: " followed by the name of the dynamic type of the plan. -/
theorem buildExplainPlan_unsupported {N R S : Type}
    (BuildPlan : StmtNode N → String → String → R → S → Option (Plan N) × Option GoError)
    (Restore : StmtNode N → RestoreCtx → RestoreCtx × Option GoError)
    (DefaultRestoreFlags : Nat) (DefaultSlice : String)
    (stmt : ExplainStmt N) (db sql : String) (r : R) (seq : S) (p : Option (Plan N))
    (hne : stmt.Stmt.isExplainStmt = false)
    (hbp : BuildPlan stmt.Stmt db sql r seq = (p, none))
    (hsel : ∀ m, p ≠ some (.SelectPlan m)) (hdel : ∀ m, p ≠ some (.DeletePlan m))
    (hupd : ∀ m, p ≠ some (.UpdatePlan m)) (hins : ∀ m, p ≠ some (.InsertPlan m))
    (huns : ∀ d s, p ≠ some (.UnshardPlan d s)) :
    buildExplainPlan BuildPlan Restore DefaultRestoreFlags DefaultSlice stmt db sql r seq =
      (none, some ⟨"unsupport plan to explain, type: " ++ Plan.typeName p⟩) := by
  rcases p with _ | pl
  · simp [buildExplainPlan, hne, hbp]
  · cases pl with
    | SelectPlan m => exact absurd rfl (hsel m)
    | DeletePlan m => exact absurd rfl (hdel m)
    | UpdatePlan m => exact absurd rfl (hupd m)
    | InsertPlan m => exact absurd rfl (hins m)
    | UnshardPlan d s => exact absurd rfl (huns d s)
    | ExplainPlan ep => simp [buildExplainPlan, hne, hbp]
    | Other n => simp [buildExplainPlan, hne, hbp]

/-- Witness of C10: the statement `SET x = 1` gets a plan of a type that the explain plan does
not know. -/
theorem buildExplainPlan_unsupported_witness :
    buildExplainPlan scenarioBuildPlan scenarioRestore 0 "default"
        { Stmt := .Other "SET x = 1" } "app" "EXPLAIN SET x = 1" () () =
      (none, some ⟨"unsupport plan to explain, type: *plan.SetPlan"⟩) :=
  buildExplainPlan_unsupported scenarioBuildPlan scenarioRestore 0 "default"
    { Stmt := .Other "SET x = 1" } "app" "EXPLAIN SET x = 1" () () (some (.Other "*plan.SetPlan"))
    rfl (by decide) (by simp) (by simp) (by simp) (by simp) (by simp)

/-! ## Shared lemmas for the rows and for the successful results -/

/-- A row is built exactly for a slice, a db under it and an SQL text of the pair. -/
theorem mem_rows_iff (shardType : String) (sqls : RoutingMap) (row : Row) :
    row ∈ createExplainResult.rows shardType sqls ↔
      ∃ sd ∈ sqls.range, ∃ dt ∈ sd.2.range, ∃ sql ∈ dt.2, row = [shardType, sd.1, dt.1, sql] := by
  rw [rows_eq_flatMap]
  simp only [List.mem_flatMap, List.mem_map]
  constructor
  · rintro ⟨sd, hsd, dt, hdt, sql, hsql, rfl⟩
    exact ⟨sd, hsd, dt, hdt, sql, hsql, rfl⟩
  · rintro ⟨sd, hsd, dt, hdt, sql, hsql, rfl⟩
    exact ⟨sd, hsd, dt, hdt, sql, hsql, rfl⟩

/-- The result of `buildExplainPlan` in terms of the wrapped statement and of the result of
`BuildPlan`, case by case. -/
theorem buildExplainPlan_cases {N R S : Type}
    (BuildPlan : StmtNode N → String → String → R → S → Option (Plan N) × Option GoError)
    (Restore : StmtNode N → RestoreCtx → RestoreCtx × Option GoError)
    (DefaultRestoreFlags : Nat) (DefaultSlice : String)
    (stmt : ExplainStmt N) (db sql : String) (r : R) (seq : S) :
    (stmt.Stmt.isExplainStmt = true ∧
        buildExplainPlan BuildPlan Restore DefaultRestoreFlags DefaultSlice stmt db sql r seq =
          (none, some ⟨"nested explain"⟩)) ∨
      (stmt.Stmt.isExplainStmt = false ∧ ∃ p e, BuildPlan stmt.Stmt db sql r seq = (p, some e) ∧
        buildExplainPlan BuildPlan Restore DefaultRestoreFlags DefaultSlice stmt db sql r seq =
          (none, some ⟨"build plan to explain error: " ++ e.msg⟩)) ∨
      (stmt.Stmt.isExplainStmt = false ∧ ∃ p, BuildPlan stmt.Stmt db sql r seq = (p, none) ∧
        Plan.explainable p = false ∧
        buildExplainPlan BuildPlan Restore DefaultRestoreFlags DefaultSlice stmt db sql r seq =
          (none, some ⟨"unsupport plan to explain, type: " ++ Plan.typeName p⟩)) ∨
      (stmt.Stmt.isExplainStmt = false ∧ ∃ p, BuildPlan stmt.Stmt db sql r seq = (p, none) ∧
        Plan.explainable p = true ∧ Plan.isUnshard p = false ∧ ∃ m,
        buildExplainPlan BuildPlan Restore DefaultRestoreFlags DefaultSlice stmt db sql r seq =
          (some ⟨"shard", m⟩, none)) ∨
      (stmt.Stmt.isExplainStmt = false ∧ ∃ d s,
        BuildPlan stmt.Stmt db sql r seq = (some (.UnshardPlan d s), none) ∧
        buildExplainPlan BuildPlan Restore DefaultRestoreFlags DefaultSlice stmt db sql r seq =
          (some ⟨"unshard",
            some [(DefaultSlice, some [(d, [restoredText Restore DefaultRestoreFlags s])])]⟩,
            none)) := by
  cases hne : stmt.Stmt.isExplainStmt with
  | true => left; simp [buildExplainPlan, hne]
  | false =>
    right
    rcases hres : BuildPlan stmt.Stmt db sql r seq with ⟨p, err⟩
    cases err with
    | some e => left; exact ⟨rfl, p, e, rfl, by simp [buildExplainPlan, hne, hres]⟩
    | none =>
      right
      rcases p with _ | pl
      · left; exact ⟨rfl, none, rfl, rfl, by simp [buildExplainPlan, hne, hres]⟩
      · cases pl with
        | SelectPlan m =>
          right; left
          exact ⟨rfl, _, rfl, rfl, rfl, m, by simp [buildExplainPlan, hne, hres, ShardTypeShard]⟩
        | DeletePlan m =>
          right; left
          exact ⟨rfl, _, rfl, rfl, rfl, m, by simp [buildExplainPlan, hne, hres, ShardTypeShard]⟩
        | UpdatePlan m =>
          right; left
          exact ⟨rfl, _, rfl, rfl, rfl, m, by simp [buildExplainPlan, hne, hres, ShardTypeShard]⟩
        | InsertPlan m =>
          right; left
          exact ⟨rfl, _, rfl, rfl, rfl, m, by simp [buildExplainPlan, hne, hres, ShardTypeShard]⟩
        | UnshardPlan d s =>
          right; right
          exact ⟨rfl, d, s, rfl, by
            simp [buildExplainPlan, hne, hres, restoredText, GoMap.make, GoMap.set,
              GoMap.setEntries, ShardTypeUnshard]⟩
        | ExplainPlan ep =>
          left; exact ⟨rfl, _, rfl, rfl, by simp [buildExplainPlan, hne, hres]⟩
        | Other n =>
          left; exact ⟨rfl, _, rfl, rfl, by simp [buildExplainPlan, hne, hres]⟩

/-- In a list of entries without a repeated key, the key of an entry differs from the keys of
all entries before and after it. -/
theorem key_ne_of_nodup {V : Type} (pre post : List (String × V)) (k : String) (v : V)
    (h : ((pre ++ (k, v) :: post).map Prod.fst).Nodup) :
    ∀ x ∈ pre ++ post, x.1 ≠ k := by
  intro x hx hxk
  rw [List.map_append, List.map_cons] at h
  have h2 := (List.nodup_middle.mp h)
  rw [List.nodup_cons] at h2
  apply h2.1
  rw [← List.map_append]
  exact List.mem_map.mpr ⟨x, hx, hxk⟩

/-- C11: when `buildExplainPlan` returns a plan, the column at position 0 is the column
`type`, the shard type of the plan is one of "unshard" and "shard", every row that `ExecuteIn`
hands to the result set carries this one shard type in its cell 0, and the shard type is
"unshard" exactly when the plan that `BuildPlan` returned for the wrapped statement is the
Unshard variant. -/
theorem buildExplainPlan_type_column {N R S : Type}
    (BuildPlan : StmtNode N → String → String → R → S → Option (Plan N) × Option GoError)
    (Restore : StmtNode N → RestoreCtx → RestoreCtx × Option GoError)
    (DefaultRestoreFlags : Nat) (DefaultSlice : String)
    (stmt : ExplainStmt N) (db sql : String) (r : R) (seq : S)
    (ep : ExplainPlan) (e : Option GoError)
    (hok : buildExplainPlan BuildPlan Restore DefaultRestoreFlags DefaultSlice stmt db sql r seq =
      (some ep, e)) :
    createExplainResult.names[0]? = some "type" ∧
      (ep.shardType = "unshard" ∨ ep.shardType = "shard") ∧
      (∀ row ∈ createExplainResult.rows ep.shardType ep.sqls, row[0]? = some ep.shardType) ∧
      (ep.shardType = "unshard" ↔
        Plan.isUnshard (BuildPlan stmt.Stmt db sql r seq).1 = true) ∧
      ∀ {F RS C E : Type}
        (B : Option (List F) → List String → List Row → Option RS × Option GoError)
        (ctx : C) (executor : E),
        (ep.ExecuteIn B ctx executor).1 =
          some ⟨(B none createExplainResult.names
            (createExplainResult.rows ep.shardType ep.sqls)).1⟩ := by
  refine ⟨rfl, ?_, ?_, ?_, fun _ _ _ => rfl⟩
  · rcases buildExplainPlan_cases BuildPlan Restore DefaultRestoreFlags DefaultSlice stmt db sql
      r seq with ⟨_, h⟩ | ⟨_, _, _, _, h⟩ | ⟨_, _, _, _, h⟩ | ⟨_, _, _, _, _, m, h⟩ |
      ⟨_, d, s, _, h⟩ <;> rw [hok] at h <;> simp only [Prod.mk.injEq, Option.some.injEq] at h
    · exact absurd h.1 (by simp)
    · exact absurd h.1 (by simp)
    · exact absurd h.1 (by simp)
    · right; rw [h.1]
    · left; rw [h.1]
  · intro row hrow
    obtain ⟨sd, _, dt, _, q, _, rfl⟩ := (mem_rows_iff _ _ _).mp hrow
    rfl
  · rcases buildExplainPlan_cases BuildPlan Restore DefaultRestoreFlags DefaultSlice stmt db sql
      r seq with ⟨_, h⟩ | ⟨_, _, _, _, h⟩ | ⟨_, _, _, _, h⟩ | ⟨_, p, hp, _, hu, m, h⟩ |
      ⟨_, d, s, hp, h⟩ <;> rw [hok] at h <;> simp only [Prod.mk.injEq, Option.some.injEq] at h
    · exact absurd h.1 (by simp)
    · exact absurd h.1 (by simp)
    · exact absurd h.1 (by simp)
    · rw [h.1, hp, hu]
      simp only [Bool.false_eq_true, iff_false]
      decide
    · rw [h.1, hp]
      simp [Plan.isUnshard]

/-- Witness of C11: the plan built for `EXPLAIN SHOW TABLES` has the shard type "unshard" in
cell 0 of its rows, the inner plan being an Unshard plan. -/
theorem buildExplainPlan_type_column_witness :
    buildExplainPlan scenarioBuildPlan scenarioRestore 0 "default"
        { Stmt := .Other "SHOW TABLES" } "app" "EXPLAIN SHOW TABLES" () () =
        (some ⟨"unshard", some [("default", some [("app", ["SHOW TABLES"])])]⟩, none) ∧
      (∀ row ∈ createExplainResult.rows "unshard"
          (some [("default", some [("app", ["SHOW TABLES"])])]), row[0]? = some "unshard") ∧
      ("unshard" = "unshard" ↔
        Plan.isUnshard (scenarioBuildPlan (.Other "SHOW TABLES") "app" "EXPLAIN SHOW TABLES"
          () ()).1 = true) :=
  have h := buildExplainPlan_type_column scenarioBuildPlan scenarioRestore 0 "default"
    { Stmt := .Other "SHOW TABLES" } "app" "EXPLAIN SHOW TABLES" () ()
    ⟨"unshard", some [("default", some [("app", ["SHOW TABLES"])])]⟩ none (by decide)
  ⟨by decide, h.2.2.1, h.2.2.2.1⟩

/-- C12: in a routing map that holds every slice and, under a slice, every database once,
take any (slice, db) pair, wherever the `range` loops visit it (after the entries `pre` and
before `post` at the outer level, after `pre'` and before `post'` under the slice). The rows
of the pair are contiguous: the row list is `before`, then one row per SQL text of the
sequence of the pair in the order of the sequence, then `after`, and no row of `before` or
`after` belongs to the pair; the k-th row of the block carries the k-th SQL text. -/
theorem createExplainResult_rows_pair_block (shardType : String) (sqls : RoutingMap)
    (pre post : List (String × GoMap (List String))) (slice : String)
    (dbs : GoMap (List String)) (pre' post' : List (String × List String)) (db : String)
    (sqlSeq : List String)
    (hkeys : routingKeysUnique sqls)
    (hslice : sqls.range = pre ++ (slice, dbs) :: post)
    (hdb : dbs.range = pre' ++ (db, sqlSeq) :: post') :
    ∃ before after : List Row,
      createExplainResult.rows shardType sqls =
          before ++ (sqlSeq.map (fun q => [shardType, slice, db, q]) ++ after) ∧
        (∀ row ∈ before ++ after, ¬ (row[1]? = some slice ∧ row[2]? = some db)) ∧
        ∀ k : Nat, ∀ hk : k < sqlSeq.length,
          (createExplainResult.rows shardType sqls)[before.length + k]? =
            some [shardType, slice, db, sqlSeq[k]] := by
  have hout : ∀ x ∈ pre ++ post, x.1 ≠ slice := by
    apply key_ne_of_nodup pre post slice dbs
    have := hkeys.1
    rwa [GoMap.uniqueKeys, hslice] at this
  have hin : ∀ x ∈ pre' ++ post', x.1 ≠ db := by
    apply key_ne_of_nodup pre' post' db sqlSeq
    have := hkeys.2 (slice, dbs) (by rw [hslice]; simp)
    rwa [GoMap.uniqueKeys, hdb] at this
  have hrows : createExplainResult.rows shardType sqls =
      (createExplainResult.rows shardType (some pre) ++
          createExplainResult.rows shardType (some [(slice, some pre')])) ++
        (sqlSeq.map (fun q => [shardType, slice, db, q]) ++
          (createExplainResult.rows shardType (some [(slice, some post')]) ++
            createExplainResult.rows shardType (some post))) := by
    rw [rows_eq_flatMap shardType sqls, hslice]
    simp only [List.flatMap_append, List.flatMap_cons, hdb, List.append_assoc]
    simp only [rows_eq_flatMap, GoMap.range, Option.getD_some, List.flatMap_cons,
      List.flatMap_nil, List.append_nil]
  refine ⟨_, _, hrows, ?_, ?_⟩
  · intro row hrow ⟨h1, h2⟩
    simp only [List.mem_append, mem_rows_iff, GoMap.range, Option.getD_some,
      List.mem_singleton] at hrow
    rcases hrow with (⟨sd, hsd, dt, _, q, _, rfl⟩ | ⟨sd, rfl, dt, hdt, q, _, rfl⟩) |
      (⟨sd, rfl, dt, hdt, q, _, rfl⟩ | ⟨sd, hsd, dt, _, q, _, rfl⟩)
    · exact hout sd (List.mem_append_left _ hsd) (by simpa using h1)
    · exact hin dt (List.mem_append_left _ hdt) (by simpa using h2)
    · exact hin dt (List.mem_append_right _ hdt) (by simpa using h2)
    · exact hout sd (List.mem_append_right _ hsd) (by simpa using h1)
  · intro k hk
    rw [hrows, List.getElem?_append_right (Nat.le_add_right _ _), Nat.add_sub_cancel_left,
      List.getElem?_append_left (by simpa using hk), List.getElem?_map,
      List.getElem?_eq_getElem hk]
    rfl

/-- Witness of C12: the pair (s0, d1) with the sequence q1, q2 is visited after the pair
(s0, d0) and before the slice s1; its two rows are the rows 1 and 2, in the order q1, q2. -/
theorem createExplainResult_rows_pair_block_witness :
    ∃ before after : List Row,
      createExplainResult.rows "shard"
          (some [("s0", some [("d0", ["q0"]), ("d1", ["q1", "q2"])]),
            ("s1", some [("d0", ["q3"])])]) =
          before ++ ([["shard", "s0", "d1", "q1"], ["shard", "s0", "d1", "q2"]] ++ after) ∧
        (∀ row ∈ before ++ after, ¬ (row[1]? = some "s0" ∧ row[2]? = some "d1")) ∧
        ∀ k : Nat, ∀ hk : k < ["q1", "q2"].length,
          (createExplainResult.rows "shard"
            (some [("s0", some [("d0", ["q0"]), ("d1", ["q1", "q2"])]),
              ("s1", some [("d0", ["q3"])])]))[before.length + k]? =
            some ["shard", "s0", "d1", ["q1", "q2"][k]] :=
  createExplainResult_rows_pair_block "shard"
    (some [("s0", some [("d0", ["q0"]), ("d1", ["q1", "q2"])]), ("s1", some [("d0", ["q3"])])])
    [] [("s1", some [("d0", ["q3"])])] "s0" (some [("d0", ["q0"]), ("d1", ["q1", "q2"])])
    [("d0", ["q0"])] [] "d1" ["q1", "q2"]
    (by simp [routingKeysUnique, GoMap.uniqueKeys, GoMap.range]) rfl rfl

/-- C13: `buildExplainPlan` returns a nil error if and only if the wrapped statement is not an
EXPLAIN statement, `BuildPlan` on the wrapped statement returns a nil error, and the plan it
returns is one of Select, Delete, Update, Insert, Unshard; it returns a plan exactly when it
returns a nil error, so a failure comes with a nil plan and a success with a nil error; and on
success with an inner Unshard plan the routing map of the plan is not nil. -/
theorem buildExplainPlan_succeeds_iff {N R S : Type}
    (BuildPlan : StmtNode N → String → String → R → S → Option (Plan N) × Option GoError)
    (Restore : StmtNode N → RestoreCtx → RestoreCtx × Option GoError)
    (DefaultRestoreFlags : Nat) (DefaultSlice : String)
    (stmt : ExplainStmt N) (db sql : String) (r : R) (seq : S) :
    ((buildExplainPlan BuildPlan Restore DefaultRestoreFlags DefaultSlice stmt db sql r seq).2 =
          none ↔
        (stmt.Stmt.isExplainStmt = false ∧ (BuildPlan stmt.Stmt db sql r seq).2 = none ∧
          Plan.explainable (BuildPlan stmt.Stmt db sql r seq).1 = true)) ∧
      ((buildExplainPlan BuildPlan Restore DefaultRestoreFlags DefaultSlice stmt db sql r seq).2 ≠
          none →
        (buildExplainPlan BuildPlan Restore DefaultRestoreFlags DefaultSlice stmt db sql r seq).1 =
          none) ∧
      ((buildExplainPlan BuildPlan Restore DefaultRestoreFlags DefaultSlice stmt db sql r seq).1 ≠
          none →
        (buildExplainPlan BuildPlan Restore DefaultRestoreFlags DefaultSlice stmt db sql r seq).2 =
          none) ∧
      ((buildExplainPlan BuildPlan Restore DefaultRestoreFlags DefaultSlice stmt db sql r seq).2 =
          none →
        (buildExplainPlan BuildPlan Restore DefaultRestoreFlags DefaultSlice stmt db sql r seq).1 ≠
          none) ∧
      ((buildExplainPlan BuildPlan Restore DefaultRestoreFlags DefaultSlice stmt db sql r seq).2 =
          none →
        Plan.isUnshard (BuildPlan stmt.Stmt db sql r seq).1 = true →
        ∃ ep : ExplainPlan,
          (buildExplainPlan BuildPlan Restore DefaultRestoreFlags DefaultSlice stmt db sql r
            seq).1 = some ep ∧ ep.sqls ≠ none) := by
  rcases buildExplainPlan_cases BuildPlan Restore DefaultRestoreFlags DefaultSlice stmt db sql
    r seq with ⟨hne, h⟩ | ⟨hne, p, e, hp, h⟩ | ⟨hne, p, hp, hx, h⟩ | ⟨hne, p, hp, hx, hu, m, h⟩ |
    ⟨hne, d, s, hp, h⟩
  · rw [h]; simp [hne]
  · rw [h, hp]; simp
  · rw [h, hp]; simp [hx]
  · rw [h, hp]; simp [hne, hx, hu]
  · rw [h, hp]; simp [hne, Plan.explainable]

/-- Witness of C13: `EXPLAIN SHOW TABLES` succeeds with an inner Unshard plan, and the routing
map of the plan it returns is not nil. -/
theorem buildExplainPlan_succeeds_iff_witness :
    ∃ ep : ExplainPlan,
      (buildExplainPlan scenarioBuildPlan scenarioRestore 0 "default"
        { Stmt := .Other "SHOW TABLES" } "app" "EXPLAIN SHOW TABLES" () ()).1 = some ep ∧
        ep.sqls ≠ none :=
  (buildExplainPlan_succeeds_iff scenarioBuildPlan scenarioRestore 0 "default"
    { Stmt := .Other "SHOW TABLES" } "app" "EXPLAIN SHOW TABLES" () ()).2.2.2.2
    (by decide) (by decide)

/-- C14: when the wrapped statement is not an EXPLAIN, the inner plan is an Unshard plan with
statement `s` and database `d`, and `Restore` returns an error for `s`, `buildExplainPlan` still
returns a plan with a nil error; its single SQL entry is the text that `Restore` had written to
the builder, the error of `Restore` is not the error returned, and the result is the one
obtained from a `Restore` that writes the same text and returns no error. -/
theorem buildExplainPlan_restore_error_discarded {N R S : Type}
    (BuildPlan : StmtNode N → String → String → R → S → Option (Plan N) × Option GoError)
    (Restore : StmtNode N → RestoreCtx → RestoreCtx × Option GoError)
    (DefaultRestoreFlags : Nat) (DefaultSlice : String)
    (stmt : ExplainStmt N) (db sql : String) (r : R) (seq : S) (d : String) (s : StmtNode N)
    (e : GoError)
    (hne : stmt.Stmt.isExplainStmt = false)
    (hbp : BuildPlan stmt.Stmt db sql r seq = (some (.UnshardPlan d s), none))
    (herr : (Restore s (NewRestoreCtx DefaultRestoreFlags "")).2 = some e) :
    buildExplainPlan BuildPlan Restore DefaultRestoreFlags DefaultSlice stmt db sql r seq =
        (some ⟨"unshard",
          some [(DefaultSlice,
            some [(d, [(Restore s (NewRestoreCtx DefaultRestoreFlags "")).1.In])])]⟩,
          none) ∧
      (buildExplainPlan BuildPlan Restore DefaultRestoreFlags DefaultSlice stmt db sql r seq).2 ≠
        (Restore s (NewRestoreCtx DefaultRestoreFlags "")).2 ∧
      buildExplainPlan BuildPlan Restore DefaultRestoreFlags DefaultSlice stmt db sql r seq =
        buildExplainPlan BuildPlan (fun st c => ((Restore st c).1, none)) DefaultRestoreFlags
          DefaultSlice stmt db sql r seq := by
  refine ⟨?_, ?_, ?_⟩
  · simp [buildExplainPlan, hne, hbp, GoMap.make, GoMap.set, GoMap.setEntries, ShardTypeUnshard]
  · rw [herr]
    simp [buildExplainPlan, hne, hbp]
  · simp [buildExplainPlan, hne, hbp]

/-- Witness of C14: for `EXPLAIN SHOW TABLES` a `Restore` that fails after writing `SHOW`
leaves the plan with the single SQL entry `SHOW` and a nil error. -/
theorem buildExplainPlan_restore_error_discarded_witness :
    buildExplainPlan scenarioBuildPlan scenarioRestoreFailing 0 "default"
        { Stmt := .Other "SHOW TABLES" } "app" "EXPLAIN SHOW TABLES" () () =
      (some ⟨"unshard", some [("default", some [("app", ["SHOW"])])]⟩, none) :=
  (buildExplainPlan_restore_error_discarded scenarioBuildPlan scenarioRestoreFailing 0 "default"
    { Stmt := .Other "SHOW TABLES" } "app" "EXPLAIN SHOW TABLES" () () "app"
    (.Other "SHOW TABLES") ⟨"restore failed"⟩ rfl (by decide) rfl).1

/-- C15: every row that `createExplainResult` builds has exactly four cells, as many as the
column names type, slice, db, sql that are passed with it; cell 0 is the shard type, cell 1 a
slice key of the map, cell 2 a db key under that slice and cell 3 an SQL text of the pair; and
these rows and names are what `BuildResultset` is handed. -/
theorem createExplainResult_row_width (shardType : String) (sqls : RoutingMap) (row : Row)
    (hrow : row ∈ createExplainResult.rows shardType sqls) :
    row.length = 4 ∧ row.length = createExplainResult.names.length ∧
      createExplainResult.names = ["type", "slice", "db", "sql"] ∧
      (∃ sd ∈ sqls.range, ∃ dt ∈ sd.2.range, ∃ q ∈ dt.2,
        row[0]? = some shardType ∧ row[1]? = some sd.1 ∧ row[2]? = some dt.1 ∧
          row[3]? = some q) ∧
      ∀ {F RS : Type}
        (B : Option (List F) → List String → List Row → Option RS × Option GoError),
        createExplainResult B shardType sqls =
          some ⟨(B none createExplainResult.names
            (createExplainResult.rows shardType sqls)).1⟩ := by
  obtain ⟨sd, hsd, dt, hdt, q, hq, rfl⟩ := (mem_rows_iff _ _ _).mp hrow
  exact ⟨rfl, rfl, rfl, ⟨sd, hsd, dt, hdt, q, hq, rfl, rfl, rfl, rfl⟩, fun _ => rfl⟩

/-- Witness of C15: the row built for the entry q1 of the pair (s0, d1) has four cells. -/
theorem createExplainResult_row_width_witness :
    ["shard", "s0", "d1", "q1"] ∈ createExplainResult.rows "shard"
        (some [("s0", some [("d0", ["q0"]), ("d1", ["q1", "q2"])])]) ∧
      ["shard", "s0", "d1", "q1"].length = createExplainResult.names.length :=
  ⟨by decide,
    (createExplainResult_row_width "shard"
      (some [("s0", some [("d0", ["q0"]), ("d1", ["q1", "q2"])])])
      ["shard", "s0", "d1", "q1"] (by decide)).2.1⟩

end plan
